import Mathlib

/-!
Shallow embedding of `mediapipe/tasks/python/vision/face_landmarker.py`.

Embedded here: the option marshalling (`FaceLandmarkerOptions.to_pb2`), the
graph configuration assembled by `FaceLandmarker.create_from_options`
(output-stream declaration and the flow-limiting flag), the result projection
`_build_landmarker_result`, the output-side semantics of the three entry
points (`detect`, `detect_for_video`, and the live-stream `packets_callback`),
and the millisecond/microsecond timestamp conversions.

Python floats that this layer merely copies (confidence thresholds) are
embedded as `Rat`; matrix payload elements and landmark coordinates, which the
layer rearranges but never computes with, are embedded as `Float` (no
floating-point operation is ever performed on them).  Fallible operations
(`numpy.reshape` on an element-count mismatch raises `ValueError`) return
`Option`, with `none` standing for the raised exception.
-/

namespace MP

/-- Running mode of a vision task (`VisionTaskRunningMode`, external module
`vision_task_running_mode`). -/
inductive RunningMode where
  | IMAGE
  | VIDEO
  | LIVE_STREAM
deriving DecidableEq

/-- Layout enum of the `MatrixData` proto (`matrix_data_pb2.MatrixData.Layout`;
`COLUMN_MAJOR = 0` is the proto default value). -/
inductive Layout where
  | COLUMN_MAJOR
  | ROW_MAJOR
deriving DecidableEq

/-- Stream/tag constants of `face_landmarker.py` (lines 51-63). -/
def _IMAGE_IN_STREAM_NAME : String := "image_in"

def _IMAGE_OUT_STREAM_NAME : String := "image_out"

def _IMAGE_TAG : String := "IMAGE"

def _NORM_RECT_STREAM_NAME : String := "norm_rect_in"

def _NORM_RECT_TAG : String := "NORM_RECT"

def _NORM_LANDMARKS_STREAM_NAME : String := "norm_landmarks"

def _NORM_LANDMARKS_TAG : String := "NORM_LANDMARKS"

def _BLENDSHAPES_STREAM_NAME : String := "blendshapes"

def _BLENDSHAPES_TAG : String := "BLENDSHAPES"

def _FACE_GEOMETRY_STREAM_NAME : String := "face_geometry"

def _FACE_GEOMETRY_TAG : String := "FACE_GEOMETRY"

def _TASK_GRAPH_NAME : String :=
  "mediapipe.tasks.vision.face_landmarker.FaceLandmarkerGraph"

def _MICRO_SECONDS_PER_MILLISECOND : Int := 1000

/-- `BaseOptions` lives in the external core module `base_options`; only what
this layer touches is embedded: an opaque model reference, carried through
`to_pb2` unchanged. -/
structure BaseOptions where
  model_asset_path : String
deriving DecidableEq

/-- The `BaseOptions` proto produced by `BaseOptions.to_pb2` (external
module); `use_stream_mode` has proto default `false` before
`FaceLandmarkerOptions.to_pb2` overwrites it. -/
structure BaseOptionsProto where
  model_asset_path : String
  use_stream_mode : Bool
deriving DecidableEq

/-- `base_options.to_pb2()` of the external core module: copies the model
reference; `use_stream_mode` starts at its proto default. -/
def BaseOptions.to_pb2 (b : BaseOptions) : BaseOptionsProto :=
  { model_asset_path := b.model_asset_path, use_stream_mode := false }

/-- `FaceLandmarkerOptions` (lines 1143-1185).  The `result_callback` field is
embedded as a presence flag: `create_from_options` only tests it for
truthiness. -/
structure FaceLandmarkerOptions where
  base_options : BaseOptions
  running_mode : RunningMode := RunningMode.IMAGE
  num_faces : Int := 1
  min_face_detection_confidence : Rat := 1/2
  min_face_presence_confidence : Rat := 1/2
  min_tracking_confidence : Rat := 1/2
  output_face_blendshapes : Bool := false
  output_facial_transformation_matrixes : Bool := false
  has_result_callback : Bool := false
deriving DecidableEq

/-- `FaceDetectorGraphOptions` sub-message of the generated graph options. -/
structure FaceDetectorGraphOptions where
  num_faces : Int
  min_detection_confidence : Rat
deriving DecidableEq

/-- `FaceLandmarksDetectorGraphOptions` sub-message of the generated graph
options. -/
structure FaceLandmarksDetectorGraphOptions where
  min_detection_confidence : Rat
deriving DecidableEq

/-- `FaceLandmarkerGraphOptions` proto
(`face_landmarker_graph_options_pb2.FaceLandmarkerGraphOptions`), restricted
to the fields `to_pb2` assigns. -/
structure FaceLandmarkerGraphOptionsProto where
  base_options : BaseOptionsProto
  face_detector_graph_options : FaceDetectorGraphOptions
  face_landmarks_detector_graph_options : FaceLandmarksDetectorGraphOptions
  min_tracking_confidence : Rat
deriving DecidableEq

/-- `FaceLandmarkerOptions.to_pb2` (lines 1187-1215), field by field:
`use_stream_mode = False if running_mode == IMAGE else True`;
`face_detector_graph_options.num_faces = num_faces`;
`face_detector_graph_options.min_detection_confidence =
min_face_detection_confidence`;
`min_tracking_confidence = min_tracking_confidence`;
`face_landmarks_detector_graph_options.min_detection_confidence =
min_face_detection_confidence` (the source reads
`self.min_face_detection_confidence` here; `min_face_presence_confidence` is
never read by `to_pb2`). -/
def FaceLandmarkerOptions.to_pb2 (o : FaceLandmarkerOptions) :
    FaceLandmarkerGraphOptionsProto :=
  let base_options_proto : BaseOptionsProto :=
    { o.base_options.to_pb2 with
        use_stream_mode := if o.running_mode = RunningMode.IMAGE then false else true }
  { base_options := base_options_proto
    face_detector_graph_options :=
      { num_faces := o.num_faces
        min_detection_confidence := o.min_face_detection_confidence }
    face_landmarks_detector_graph_options :=
      { min_detection_confidence := o.min_face_detection_confidence }
    min_tracking_confidence := o.min_tracking_confidence }

/-- Output streams declared by `create_from_options` (lines 1289-1301):
always `NORM_LANDMARKS:norm_landmarks` and `IMAGE:image_out`; the blendshapes
stream exactly when `output_face_blendshapes`, the face-geometry stream
exactly when `output_facial_transformation_matrixes`. -/
def output_streams (o : FaceLandmarkerOptions) : List String :=
  [_NORM_LANDMARKS_TAG ++ ":" ++ _NORM_LANDMARKS_STREAM_NAME,
   _IMAGE_TAG ++ ":" ++ _IMAGE_OUT_STREAM_NAME]
    ++ (if o.output_face_blendshapes then
          [_BLENDSHAPES_TAG ++ ":" ++ _BLENDSHAPES_STREAM_NAME] else [])
    ++ (if o.output_facial_transformation_matrixes then
          [_FACE_GEOMETRY_TAG ++ ":" ++ _FACE_GEOMETRY_STREAM_NAME] else [])

/-- The graph configuration handed to the engine: the `TaskInfo` fields
(lines 1303-1311) plus the `enable_flow_limiting` argument of
`generate_graph_config` (lines 1312-1316). -/
structure GraphConfig where
  task_graph : String
  input_streams : List String
  output_streams : List String
  task_options : FaceLandmarkerGraphOptionsProto
  enable_flow_limiting : Bool
deriving DecidableEq

/-- Graph configuration built by `create_from_options`:
`enable_flow_limiting = (options.running_mode == _RunningMode.LIVE_STREAM)`. -/
def create_graph_config (o : FaceLandmarkerOptions) : GraphConfig :=
  { task_graph := _TASK_GRAPH_NAME
    input_streams := [_IMAGE_TAG ++ ":" ++ _IMAGE_IN_STREAM_NAME,
                      _NORM_RECT_TAG ++ ":" ++ _NORM_RECT_STREAM_NAME]
    output_streams := output_streams o
    task_options := o.to_pb2
    enable_flow_limiting := decide (o.running_mode = RunningMode.LIVE_STREAM) }

/-- `NormalizedLandmark` proto (`landmark_pb2`): only the coordinate fields
this layer copies are embedded. -/
structure NormalizedLandmarkProto where
  x : Float
  y : Float
  z : Float
  visibility : Float
  presence : Float

/-- `NormalizedLandmarkList` proto (`landmark_pb2`). -/
structure NormalizedLandmarkList where
  landmark : List NormalizedLandmarkProto

/-- User-facing `NormalizedLandmark` container (external module `landmark`). -/
structure NormalizedLandmark where
  x : Float
  y : Float
  z : Float
  visibility : Float
  presence : Float

/-- `NormalizedLandmark.create_from_pb2` of the external `landmark` module:
copies the proto fields into the container. -/
def NormalizedLandmark.create_from_pb2 (p : NormalizedLandmarkProto) :
    NormalizedLandmark :=
  { x := p.x, y := p.y, z := p.z, visibility := p.visibility,
    presence := p.presence }

/-- `Classification` proto (`classification_pb2`). -/
structure Classification where
  index : Int
  score : Float
  label : String
  display_name : String

/-- `ClassificationList` proto (`classification_pb2`). -/
structure ClassificationList where
  classification : List Classification

/-- User-facing `Category` container (external module `category`). -/
structure Category where
  index : Int
  score : Float
  display_name : String
  category_name : String

/-- `MatrixData` proto (`matrix_data_pb2`): packed element list plus declared
dimensions and layout.  Proto defaults: `rows = 0`, `cols = 0`,
`layout = COLUMN_MAJOR (= 0)`, empty `packed_data`. -/
structure MatrixData where
  rows : Nat
  cols : Nat
  layout : Layout
  packed_data : List Float

instance : Inhabited MatrixData :=
  ⟨{ rows := 0, cols := 0, layout := Layout.COLUMN_MAJOR, packed_data := [] }⟩

/-- `FaceGeometry` proto (`face_geometry_pb2`): the one field this layer
reads, with proto3 submessage presence modelled by `Option`. -/
structure FaceGeometry where
  pose_transform_matrix : Option MatrixData

/-- Python `hasattr(proto, 'pose_transform_matrix')` on a generated protobuf
message: `getattr` succeeds for every field declared in the schema, whether or
not it is set on the instance, so on a `FaceGeometry` proto this is constantly
`true` (it tests the class, not field presence, which would be
`proto.HasField`). -/
def hasattr_pose_transform_matrix (_ : FaceGeometry) : Bool := true

/-- Python `proto.pose_transform_matrix` (and `MergeFrom` into a fresh
`MatrixData`): reading an unset proto3 submessage field yields the default
instance. -/
def FaceGeometry.get_pose_transform_matrix (g : FaceGeometry) : MatrixData :=
  g.pose_transform_matrix.getD default

/-- A `numpy` 2-D array as produced by
`np.array(packed_data).reshape((rows, cols))` and `.T`: dimensions plus an
entry function; the entries are stored/read in row-major (C) order. -/
structure PMatrix where
  rows : Nat
  cols : Nat
  mat : Fin rows → Fin cols → Float

/-- `np.array(data).reshape((r, c))`, C (row-major) element order. -/
def np_reshape (data : List Float) (r c : Nat) : PMatrix :=
  { rows := r, cols := c, mat := fun i j => data.getD (i.val * c + j.val) 0 }

/-- `numpy` matrix transpose `.T`. -/
def PMatrix.transpose (m : PMatrix) : PMatrix :=
  { rows := m.cols, cols := m.rows, mat := fun i j => m.mat j i }

/-- Decoding of one `MatrixData` payload (lines 1127-1133): reshape the packed
element list to `rows x cols`, then transpose unless the declared layout is
`ROW_MAJOR`.  `reshape` raises `ValueError` when the element count does not
match `rows * cols`; that exception is `none` here. -/
def decodeMatrix (md : MatrixData) : Option PMatrix :=
  if md.packed_data.length = md.rows * md.cols then
    some (if md.layout = Layout.ROW_MAJOR then
            np_reshape md.packed_data md.rows md.cols
          else (np_reshape md.packed_data md.rows md.cols).transpose)
  else none

/-- An opaque engine image payload (`image_module.Image`). -/
structure Image where
  id : Nat
deriving DecidableEq

/-- An engine output packet: possibly-empty payload plus an integer
microsecond timestamp (`packet.timestamp.value`). -/
structure Packet (α : Type) where
  data : Option α
  timestamp : Int

/-- `packet.is_empty()`. -/
def Packet.is_empty (p : Packet α) : Bool := p.data.isNone

/-- `packet_getter.get_proto_list(packet)`: the proto list carried by the
packet (the call sites below only reach it on non-empty packets). -/
def get_proto_list (p : Packet (List α)) : List α := p.data.getD []

/-- The output-packet mapping delivered by the engine for one frame.  The
landmark and image streams are always declared; the blendshape and
face-geometry streams are in the mapping (`Option.isSome`) exactly when they
were declared at construction, mirroring the Python
`_BLENDSHAPES_STREAM_NAME in output_packets` membership tests. -/
structure OutputPackets where
  image_out : Packet Image
  norm_landmarks : Packet (List NormalizedLandmarkList)
  blendshapes : Option (Packet (List ClassificationList))
  face_geometry : Option (Packet (List FaceGeometry))

/-- The user-facing result dataclass `FaceLandmarkerResult` (lines 1066-1078):
three parallel list fields; none of them is optional in the dataclass. -/
structure FaceLandmarkerResult where
  face_landmarks : List (List NormalizedLandmark)
  face_blendshapes : List (List Category)
  facial_transformation_matrixes : List PMatrix

/-- The matrix loop of `_build_landmarker_result` (lines 1120-1134): for each
face-geometry proto, if `hasattr(proto, 'pose_transform_matrix')`, decode the
payload and append it; a decode failure (reshape `ValueError`) aborts the
whole call (`none`). -/
def projectMatrices : List FaceGeometry → Option (List PMatrix)
  | [] => some []
  | g :: rest =>
    if hasattr_pose_transform_matrix g then
      match decodeMatrix g.get_pose_transform_matrix, projectMatrices rest with
      | some m, some ms => some (m :: ms)
      | _, _ => none
    else projectMatrices rest

/-- Modelled from the spec: the matrix loop as the spec describes it — "Only
matrices for which a specific designated field (the pose transform) is
present are projected; others are skipped" — i.e. with a genuine presence
test (`proto.HasField('pose_transform_matrix')`) in place of `hasattr`.
Stated only for comparison with `projectMatrices`, the loop the source
actually runs. -/
def projectMatricesByPresence : List FaceGeometry → Option (List PMatrix)
  | [] => some []
  | g :: rest =>
    match g.pose_transform_matrix with
    | some md =>
      match decodeMatrix md, projectMatricesByPresence rest with
      | some m, some ms => some (m :: ms)
      | _, _ => none
    | none => projectMatricesByPresence rest

/-- The landmark branch of `_build_landmarker_result` (lines 1085-1098): one
wrapper list per `NormalizedLandmarkList` proto. -/
def landmark_projection (p : Packet (List NormalizedLandmarkList)) :
    List (List NormalizedLandmark) :=
  (get_proto_list p).map fun proto =>
    proto.landmark.map NormalizedLandmark.create_from_pb2

/-- The blendshape branch of `_build_landmarker_result` (lines 1100-1118):
runs only when the blendshapes stream is in the mapping
(`_BLENDSHAPES_STREAM_NAME in output_packets`); `face_blendshapes_results`
stays `[]` otherwise. -/
def blendshape_projection :
    Option (Packet (List ClassificationList)) → List (List Category)
  | some pkt =>
    (get_proto_list pkt).map fun proto =>
      proto.classification.map fun c =>
        { index := c.index, score := c.score, display_name := c.display_name,
          category_name := c.label }
  | none => []

/-- The matrix branch of `_build_landmarker_result` (lines 1120-1134): runs
the matrix loop only when the face-geometry stream is in the mapping;
`facial_transformation_matrixes_results` stays `[]` otherwise. -/
def geometry_projection :
    Option (Packet (List FaceGeometry)) → Option (List PMatrix)
  | some pkt => projectMatrices (get_proto_list pkt)
  | none => some []

/-- `_build_landmarker_result` (lines 1081-1140), assembled from the three
branches above.  An exception anywhere (a matrix decode failure) makes the
whole call fail (`none`). -/
def _build_landmarker_result (op : OutputPackets) :
    Option FaceLandmarkerResult :=
  (geometry_projection op.face_geometry).map fun ms =>
    { face_landmarks := landmark_projection op.norm_landmarks
      face_blendshapes := blendshape_projection op.blendshapes
      facial_transformation_matrixes := ms }

/-- Shape of every successfully built result: the landmark and blendshape
fields are the respective branch projections, and the matrix field is a
successful run of the matrix branch. -/
theorem build_result_shape (op : OutputPackets) (res : FaceLandmarkerResult)
    (h : _build_landmarker_result op = some res) :
    res.face_landmarks = landmark_projection op.norm_landmarks ∧
    res.face_blendshapes = blendshape_projection op.blendshapes ∧
    geometry_projection op.face_geometry =
      some res.facial_transformation_matrixes := by
  unfold _build_landmarker_result at h
  cases hg : geometry_projection op.face_geometry with
  | none => rw [hg] at h; exact absurd h (by simp)
  | some ms =>
    rw [hg] at h
    simp only [Option.map_some', Option.some.injEq] at h
    refine ⟨?_, ?_, ?_⟩ <;> rw [← h]

/-- Output-side semantics of `FaceLandmarker.detect` (lines 1356-1359), with
the engine interaction abstracted as the delivered output-packet mapping:
empty landmark packet short-circuits to the all-empty result, otherwise the
projection runs. -/
def detect (op : OutputPackets) : Option FaceLandmarkerResult :=
  if op.norm_landmarks.is_empty then
    some { face_landmarks := [], face_blendshapes := [],
           facial_transformation_matrixes := [] }
  else _build_landmarker_result op

/-- Output-side semantics of `FaceLandmarker.detect_for_video`
(lines 1401-1404): identical post-processing to `detect`. -/
def detect_for_video (op : OutputPackets) : Option FaceLandmarkerResult :=
  if op.norm_landmarks.is_empty then
    some { face_landmarks := [], face_blendshapes := [],
           facial_transformation_matrixes := [] }
  else _build_landmarker_result op

/-- What `packets_callback` does with one output-packet set: return without
invoking the user callback, or invoke it exactly once with
(result, image, timestamp in ms). -/
inductive CallbackOutcome where
  | noInvoke
  | invoke (result : FaceLandmarkerResult) (image : Image) (timestamp_ms : Int)

/-- `packets_callback` of `create_from_options` (lines 1264-1287): an empty
image packet returns immediately (the source re-tests the same emptiness once
more after `get_image`; the second test is kept here verbatim and is dead);
an empty landmark packet invokes the callback once with the all-empty result;
otherwise the callback is invoked once with the projected result.  Both
callback timestamps are the landmark packet's microsecond timestamp
floor-divided (Python `//`) by 1000. -/
def packets_callback (op : OutputPackets) : Option CallbackOutcome :=
  match op.image_out.data with
  | none => some CallbackOutcome.noInvoke
  | some image =>
    if op.image_out.is_empty then some CallbackOutcome.noInvoke
    else if op.norm_landmarks.is_empty then
      some (CallbackOutcome.invoke
        { face_landmarks := [], face_blendshapes := [],
          facial_transformation_matrixes := [] }
        image
        (Int.fdiv op.norm_landmarks.timestamp _MICRO_SECONDS_PER_MILLISECOND))
    else
      (_build_landmarker_result op).map fun r =>
        CallbackOutcome.invoke r image
          (Int.fdiv op.norm_landmarks.timestamp _MICRO_SECONDS_PER_MILLISECOND)

/-- Input-packet timestamps of `detect_for_video` (lines 1392-1399): both
input streams are stamped `.at(timestamp_ms * _MICRO_SECONDS_PER_MILLISECOND)`. -/
def video_input_packets (timestamp_ms : Int) : Int × Int :=
  (timestamp_ms * _MICRO_SECONDS_PER_MILLISECOND,
   timestamp_ms * _MICRO_SECONDS_PER_MILLISECOND)

/-- Input-packet timestamps of `detect_async` (lines 1445-1451): same
stamping as the video path. -/
def live_stream_input_packets (timestamp_ms : Int) : Int × Int :=
  (timestamp_ms * _MICRO_SECONDS_PER_MILLISECOND,
   timestamp_ms * _MICRO_SECONDS_PER_MILLISECOND)

/-- Engine contract tying a delivered output-packet mapping to the streams
declared at construction: the optional streams appear in the mapping exactly
when their `TAG:name` pair was declared in `output_streams`. -/
def StreamsMatch (o : FaceLandmarkerOptions) (op : OutputPackets) : Prop :=
  (op.blendshapes.isSome = true ↔
    (_BLENDSHAPES_TAG ++ ":" ++ _BLENDSHAPES_STREAM_NAME) ∈ output_streams o) ∧
  (op.face_geometry.isSome = true ↔
    (_FACE_GEOMETRY_TAG ++ ":" ++ _FACE_GEOMETRY_STREAM_NAME) ∈ output_streams o)

/-- C1 (status: code bug in the source): `to_pb2` does not depend on
`min_face_presence_confidence` at all — the generated configuration is
invariant under arbitrary changes of that threshold, so two options values
differing only in the face-presence threshold (0.5 vs 0.9) yield identical
configurations, contrary to the claim of three independent thresholds.  The
other two thresholds are genuinely independent inputs: changing only the
face-detection threshold, or only the tracking threshold, changes the
generated configuration. -/
theorem to_pb2_ignores_min_face_presence_confidence :
    (∀ (o : FaceLandmarkerOptions) (q : Rat),
        FaceLandmarkerOptions.to_pb2 { o with min_face_presence_confidence := q } =
          FaceLandmarkerOptions.to_pb2 o) ∧
    (FaceLandmarkerOptions.to_pb2
        { base_options := ⟨"model.task"⟩, min_face_presence_confidence := 1/2 } =
      FaceLandmarkerOptions.to_pb2
        { base_options := ⟨"model.task"⟩, min_face_presence_confidence := 9/10 }) ∧
    (FaceLandmarkerOptions.to_pb2
        { base_options := ⟨"model.task"⟩, min_face_detection_confidence := 1/2 } ≠
      FaceLandmarkerOptions.to_pb2
        { base_options := ⟨"model.task"⟩, min_face_detection_confidence := 9/10 }) ∧
    (FaceLandmarkerOptions.to_pb2
        { base_options := ⟨"model.task"⟩, min_tracking_confidence := 1/2 } ≠
      FaceLandmarkerOptions.to_pb2
        { base_options := ⟨"model.task"⟩, min_tracking_confidence := 9/10 }) := by
  refine ⟨fun o q => rfl, rfl, fun h => ?_, fun h => ?_⟩
  · exact absurd
      (congrArg (fun p => p.face_detector_graph_options.min_detection_confidence) h)
      (by norm_num [FaceLandmarkerOptions.to_pb2])
  · exact absurd (congrArg (fun p => p.min_tracking_confidence) h)
      (by norm_num [FaceLandmarkerOptions.to_pb2])

/-- C9: the graph configuration passed to the engine at construction has flow
limiting enabled if and only if the configured running mode is LIVE_STREAM. -/
theorem flow_limiting_iff_live_stream (o : FaceLandmarkerOptions) :
    (create_graph_config o).enable_flow_limiting = true ↔
      o.running_mode = RunningMode.LIVE_STREAM := by
  simp [create_graph_config]

/-- C10: `to_pb2` sets `use_stream_mode` to `false` exactly when the running
mode is IMAGE, and to `true` exactly when it is VIDEO or LIVE_STREAM. -/
theorem use_stream_mode_iff_not_image (o : FaceLandmarkerOptions) :
    ((FaceLandmarkerOptions.to_pb2 o).base_options.use_stream_mode = false ↔
        o.running_mode = RunningMode.IMAGE) ∧
    ((FaceLandmarkerOptions.to_pb2 o).base_options.use_stream_mode = true ↔
        (o.running_mode = RunningMode.VIDEO ∨
          o.running_mode = RunningMode.LIVE_STREAM)) := by
  cases h : o.running_mode <;>
    simp [FaceLandmarkerOptions.to_pb2, BaseOptions.to_pb2, h]

/-- C2: in LIVE_STREAM mode, per delivered output-packet set: an empty image
packet means the result callback is not invoked at all; a present image
packet with an empty landmark packet means exactly one invocation with the
all-empty result; otherwise exactly one invocation with the projected
result. -/
theorem live_stream_callback_delivery (op : OutputPackets) :
    (op.image_out.data = none →
      packets_callback op = some CallbackOutcome.noInvoke) ∧
    (∀ img, op.image_out.data = some img → op.norm_landmarks.data = none →
      packets_callback op = some (CallbackOutcome.invoke
        { face_landmarks := [], face_blendshapes := [],
          facial_transformation_matrixes := [] } img
        (Int.fdiv op.norm_landmarks.timestamp _MICRO_SECONDS_PER_MILLISECOND))) ∧
    (∀ img lms, op.image_out.data = some img →
      op.norm_landmarks.data = some lms →
      packets_callback op = (_build_landmarker_result op).map fun r =>
        CallbackOutcome.invoke r img
          (Int.fdiv op.norm_landmarks.timestamp _MICRO_SECONDS_PER_MILLISECOND)) := by
  refine ⟨fun hi => ?_, fun img hi hl => ?_, fun img lms hi hl => ?_⟩
  · simp [packets_callback, hi]
  · simp [packets_callback, Packet.is_empty, hi, hl]
  · simp [packets_callback, Packet.is_empty, hi, hl]

/-- Concrete output-packet set with an empty image packet (a stalled frame). -/
def op_c2 : OutputPackets :=
  { image_out := { data := none, timestamp := 0 }
    norm_landmarks := { data := none, timestamp := 0 }
    blendshapes := none
    face_geometry := none }

/-- Witness for `live_stream_callback_delivery` at a frame whose image packet
is empty: the callback is skipped. -/
theorem live_stream_callback_delivery_witness :
    op_c2.image_out.data = none ∧
    packets_callback op_c2 = some CallbackOutcome.noInvoke :=
  ⟨rfl, (live_stream_callback_delivery op_c2).1 rfl⟩

/-- C4: an empty landmark output packet (zero detected faces) yields the
all-empty result on all three entry points — no error and no blendshape or
matrix projection is attempted (the packet set `op` is arbitrary, so the
blendshape/geometry packets may hold anything, even a payload whose matrix
decode would fail). -/
theorem empty_landmark_packet_all_empty_result (op : OutputPackets)
    (h : op.norm_landmarks.data = none) :
    detect op = some { face_landmarks := [], face_blendshapes := [],
                       facial_transformation_matrixes := [] } ∧
    detect_for_video op = some { face_landmarks := [], face_blendshapes := [],
                                 facial_transformation_matrixes := [] } ∧
    (∀ img, op.image_out.data = some img →
      packets_callback op = some (CallbackOutcome.invoke
        { face_landmarks := [], face_blendshapes := [],
          facial_transformation_matrixes := [] } img
        (Int.fdiv op.norm_landmarks.timestamp _MICRO_SECONDS_PER_MILLISECOND))) := by
  refine ⟨?_, ?_, fun img hi => ?_⟩
  · simp [detect, Packet.is_empty, h]
  · simp [detect_for_video, Packet.is_empty, h]
  · simp [packets_callback, Packet.is_empty, hi, h]

/-- Concrete packet set: empty landmark packet but a blendshape packet with
data and a face-geometry packet whose matrix payload is malformed (1 element
declared as 3x3) — decoding it would fail, so a successful empty result shows
the projection was never attempted. -/
def op_c4 : OutputPackets :=
  { image_out := ⟨some ⟨1⟩, 2000⟩
    norm_landmarks := ⟨none, 2000⟩
    blendshapes := some ⟨some [⟨[⟨0, 0.5, "browDownLeft", ""⟩]⟩], 2000⟩
    face_geometry :=
      some ⟨some [⟨some ⟨3, 3, Layout.ROW_MAJOR, [1.0]⟩⟩], 2000⟩ }

/-- Witness for `empty_landmark_packet_all_empty_result` at `op_c4`. -/
theorem empty_landmark_packet_all_empty_result_witness :
    op_c4.norm_landmarks.data = none ∧
    detect op_c4 = some { face_landmarks := [], face_blendshapes := [],
                          facial_transformation_matrixes := [] } ∧
    packets_callback op_c4 = some (CallbackOutcome.invoke
      { face_landmarks := [], face_blendshapes := [],
        facial_transformation_matrixes := [] } ⟨1⟩ 2) :=
  ⟨rfl, (empty_landmark_packet_all_empty_result op_c4 rfl).1,
   (empty_landmark_packet_all_empty_result op_c4 rfl).2.2 ⟨1⟩ rfl⟩

/-- The blendshapes stream is among the declared output streams exactly when
the blendshapes toggle is on (lines 1294-1297). -/
theorem blendshapes_stream_mem_iff (o : FaceLandmarkerOptions) :
    (_BLENDSHAPES_TAG ++ ":" ++ _BLENDSHAPES_STREAM_NAME) ∈ output_streams o ↔
      o.output_face_blendshapes = true := by
  cases h1 : o.output_face_blendshapes <;>
    cases h2 : o.output_facial_transformation_matrixes <;>
      simp only [output_streams, h1, h2] <;> decide

/-- The face-geometry stream is among the declared output streams exactly
when the transformation-matrix toggle is on (lines 1298-1301). -/
theorem face_geometry_stream_mem_iff (o : FaceLandmarkerOptions) :
    (_FACE_GEOMETRY_TAG ++ ":" ++ _FACE_GEOMETRY_STREAM_NAME) ∈ output_streams o ↔
      o.output_facial_transformation_matrixes = true := by
  cases h1 : o.output_face_blendshapes <;>
    cases h2 : o.output_facial_transformation_matrixes <;>
      simp only [output_streams, h1, h2] <;> decide

/-- C3 (amended): with the blendshapes toggle off, the blendshapes stream is
not declared, hence never present in a delivered packet mapping, and every
successfully built result has `face_blendshapes = []` — no blendshape data is
ever carried, though the dataclass field itself is always present (as the
empty list) rather than omitted. -/
theorem blendshapes_empty_when_toggle_disabled (o : FaceLandmarkerOptions)
    (op : OutputPackets) (res : FaceLandmarkerResult)
    (htoggle : o.output_face_blendshapes = false)
    (hmatch : StreamsMatch o op)
    (hbuild : _build_landmarker_result op = some res) :
    op.blendshapes = none ∧ res.face_blendshapes = [] := by
  have hb : op.blendshapes = none := by
    have hiff := hmatch.1
    rw [blendshapes_stream_mem_iff] at hiff
    cases hbs : op.blendshapes with
    | none => rfl
    | some pkt =>
      rw [hbs] at hiff
      simp only [Option.isSome_some, true_iff] at hiff
      rw [hiff] at htoggle
      exact absurd htoggle (by simp)
  refine ⟨hb, ?_⟩
  rw [(build_result_shape op res hbuild).2.1, hb]
  rfl

/-- Options with every toggle at its default (blendshapes off). -/
def options_c3 : FaceLandmarkerOptions := { base_options := ⟨"model.task"⟩ }

/-- A delivered packet mapping for `options_c3`: one detected face, no
blendshape/geometry streams (they were not declared). -/
def op_c3 : OutputPackets :=
  { image_out := ⟨some ⟨0⟩, 1000⟩
    norm_landmarks := ⟨some [⟨[⟨0.1, 0.2, 0.3, 0.0, 0.0⟩]⟩], 1000⟩
    blendshapes := none
    face_geometry := none }

/-- The result the projection builds for `op_c3`. -/
def res_c3 : FaceLandmarkerResult :=
  { face_landmarks := [[⟨0.1, 0.2, 0.3, 0.0, 0.0⟩]]
    face_blendshapes := []
    facial_transformation_matrixes := [] }

/-- C3 counterexample: the claim says that with the toggle disabled the
blendshape output is "omitted entirely, not returned as an empty sequence";
but the result dataclass has no omitted state — at this concrete toggle-off
invocation with one detected face, the returned result does carry a
`face_blendshapes` field and it is exactly the empty sequence. -/
theorem blendshapes_returned_as_empty_sequence :
    options_c3.output_face_blendshapes = false ∧
    StreamsMatch options_c3 op_c3 ∧
    _build_landmarker_result op_c3 = some res_c3 ∧
    res_c3.face_landmarks.length = 1 ∧
    res_c3.face_blendshapes = [] :=
  ⟨rfl, by constructor <;> decide,
   rfl, rfl, rfl⟩

/-- Witness for `blendshapes_empty_when_toggle_disabled` at the concrete
toggle-off run `op_c3`. -/
theorem blendshapes_empty_when_toggle_disabled_witness :
    options_c3.output_face_blendshapes = false ∧
    _build_landmarker_result op_c3 = some res_c3 ∧
    op_c3.blendshapes = none ∧ res_c3.face_blendshapes = [] :=
  ⟨rfl, rfl,
   (blendshapes_empty_when_toggle_disabled options_c3 op_c3 res_c3 rfl
      (by constructor <;> decide)
      rfl).1,
   (blendshapes_empty_when_toggle_disabled options_c3 op_c3 res_c3 rfl
      (by constructor <;> decide)
      rfl).2⟩

/-- C5: decoding reshapes the packed payload to `rows x cols` and transposes
exactly when the declared layout is not `ROW_MAJOR`; hence two 4x4 payloads
with identical element order and opposite declared layouts project to mutual
transposes (the row-major decode and its transpose, which transposes back to
it). -/
theorem matrix_layout_mutual_transpose (data : List Float)
    (h : data.length = 16) :
    (∀ md : MatrixData, md.packed_data.length = md.rows * md.cols →
      decodeMatrix md =
        some (if md.layout = Layout.ROW_MAJOR then
                np_reshape md.packed_data md.rows md.cols
              else (np_reshape md.packed_data md.rows md.cols).transpose)) ∧
    decodeMatrix { rows := 4, cols := 4, layout := Layout.ROW_MAJOR,
                   packed_data := data } = some (np_reshape data 4 4) ∧
    decodeMatrix { rows := 4, cols := 4, layout := Layout.COLUMN_MAJOR,
                   packed_data := data } =
      some (np_reshape data 4 4).transpose ∧
    (np_reshape data 4 4).transpose.transpose = np_reshape data 4 4 := by
  refine ⟨fun md hmd => ?_, ?_, ?_, rfl⟩
  · simp [decodeMatrix, hmd]
  · simp [decodeMatrix, h]
  · simp [decodeMatrix, h]

/-- Payload for the layout witness: the numbers 0..15 in row-major order. -/
def data_c5 : List Float :=
  [0, 1, 2, 3, 4, 5, 6, 7, 8, 9, 10, 11, 12, 13, 14, 15]

/-- Witness for `matrix_layout_mutual_transpose` at the concrete 16-element
payload `data_c5`. -/
theorem matrix_layout_mutual_transpose_witness :
    data_c5.length = 16 ∧
    decodeMatrix { rows := 4, cols := 4, layout := Layout.COLUMN_MAJOR,
                   packed_data := data_c5 } =
      some (np_reshape data_c5 4 4).transpose :=
  ⟨by decide, (matrix_layout_mutual_transpose data_c5 (by decide)).2.2.1⟩

/-- A face-geometry record whose designated pose-transform field is not set. -/
def g_unset : FaceGeometry := { pose_transform_matrix := none }

/-- C6 (code bug): the source guards the matrix loop with
`hasattr(proto, 'pose_transform_matrix')`, which tests the protobuf class,
not field presence, and is therefore constantly true on `FaceGeometry`
records; a record lacking the pose-transform field is consequently NOT
skipped — its default (0x0) payload is decoded and appended — whereas the
genuine presence test (`HasField`, `projectMatricesByPresence`) would skip
it, as the claim and the code's own `if` intend. -/
theorem unset_pose_transform_not_skipped :
    hasattr_pose_transform_matrix g_unset = true ∧
    g_unset.pose_transform_matrix = none ∧
    (projectMatrices [g_unset]).map List.length = some 1 ∧
    (projectMatricesByPresence [g_unset]).map List.length = some 0 :=
  ⟨rfl, rfl, rfl, rfl⟩

/-- The matrix loop preserves length: since `hasattr` is constantly true on
`FaceGeometry` records, a successful run appends one matrix per input
record. -/
theorem projectMatrices_length (gs : List FaceGeometry) :
    ∀ ms : List PMatrix, projectMatrices gs = some ms → ms.length = gs.length := by
  induction gs with
  | nil =>
    intro ms h
    simp only [projectMatrices, Option.some.injEq] at h
    subst h
    rfl
  | cons g rest ih =>
    intro ms h
    simp only [projectMatrices, hasattr_pose_transform_matrix, if_true] at h
    cases hd : decodeMatrix g.get_pose_transform_matrix with
    | none => rw [hd] at h; exact absurd h (by simp)
    | some m =>
      cases hr : projectMatrices rest with
      | none => rw [hd, hr] at h; exact absurd h (by simp)
      | some ms' =>
        rw [hd, hr] at h
        simp only [Option.some.injEq] at h
        rw [← h, List.length_cons, List.length_cons, ih ms' hr]

/-- C7: for every successfully built result, the landmark sequence has one
entry per landmark record; when the engine emits `n` records per enabled
stream (one per detected face, the engine contract), the blendshape and
matrix sequences, when their stream is present, also have length `n`; absent
streams leave their sequence empty, and at `n = 0` all three sequences are
empty together. -/
theorem result_sequences_index_aligned (op : OutputPackets)
    (res : FaceLandmarkerResult) (n : Nat)
    (lms : List NormalizedLandmarkList)
    (hl : op.norm_landmarks.data = some lms) (hn : lms.length = n)
    (hb : ∀ pkt, op.blendshapes = some pkt → (get_proto_list pkt).length = n)
    (hg : ∀ pkt, op.face_geometry = some pkt → (get_proto_list pkt).length = n)
    (hbuild : _build_landmarker_result op = some res) :
    res.face_landmarks.length = n ∧
    (op.blendshapes.isSome = true → res.face_blendshapes.length = n) ∧
    (op.blendshapes = none → res.face_blendshapes = []) ∧
    (op.face_geometry.isSome = true →
      res.facial_transformation_matrixes.length = n) ∧
    (op.face_geometry = none → res.facial_transformation_matrixes = []) ∧
    (n = 0 → res.face_landmarks = [] ∧ res.face_blendshapes = [] ∧
      res.facial_transformation_matrixes = []) := by
  obtain ⟨hL, hB, hG⟩ := build_result_shape op res hbuild
  have hLlen : res.face_landmarks.length = n := by
    rw [hL, landmark_projection, List.length_map, get_proto_list, hl,
      Option.getD_some, hn]
  have hBlen : op.blendshapes.isSome = true → res.face_blendshapes.length = n := by
    intro hs
    cases hbs : op.blendshapes with
    | none => rw [hbs] at hs; exact absurd hs (by simp)
    | some pkt =>
      rw [hB, hbs, blendshape_projection, List.length_map]
      exact hb pkt hbs
  have hBnone : op.blendshapes = none → res.face_blendshapes = [] := by
    intro hbs; rw [hB, hbs]; rfl
  have hGlen : op.face_geometry.isSome = true →
      res.facial_transformation_matrixes.length = n := by
    intro hs
    cases hfg : op.face_geometry with
    | none => rw [hfg] at hs; exact absurd hs (by simp)
    | some pkt =>
      rw [hfg, geometry_projection] at hG
      rw [projectMatrices_length (get_proto_list pkt)
        res.facial_transformation_matrixes hG]
      exact hg pkt hfg
  have hGnone : op.face_geometry = none →
      res.facial_transformation_matrixes = [] := by
    intro hfg
    rw [hfg, geometry_projection, Option.some.injEq] at hG
    rw [← hG]
  refine ⟨hLlen, hBlen, hBnone, hGlen, hGnone, fun h0 => ⟨?_, ?_, ?_⟩⟩
  · rw [← List.length_eq_zero, hLlen, h0]
  · cases hbs : op.blendshapes with
    | none => exact hBnone hbs
    | some pkt =>
      rw [← List.length_eq_zero, hBlen (by rw [hbs]; rfl), h0]
  · cases hfg : op.face_geometry with
    | none => exact hGnone hfg
    | some pkt =>
      rw [← List.length_eq_zero, hGlen (by rw [hfg]; rfl), h0]

/-- Blendshape packet of the alignment witness. -/
def bp_c7 : Packet (List ClassificationList) :=
  ⟨some [⟨[⟨0, 0.75, "browDownLeft", ""⟩]⟩], 3000⟩

/-- Face-geometry packet of the alignment witness: one record with a set 2x2
row-major pose transform. -/
def gp_c7 : Packet (List FaceGeometry) :=
  ⟨some [⟨some ⟨2, 2, Layout.ROW_MAJOR, [1.0, 2.0, 3.0, 4.0]⟩⟩], 3000⟩

/-- Output-packet set of the alignment witness: one detected face on every
declared stream. -/
def op_c7 : OutputPackets :=
  { image_out := ⟨some ⟨2⟩, 3000⟩
    norm_landmarks := ⟨some [⟨[⟨0.5, 0.5, 0.0, 0.0, 0.0⟩]⟩], 3000⟩
    blendshapes := some bp_c7
    face_geometry := some gp_c7 }

/-- The result the projection builds for `op_c7`. -/
def res_c7 : FaceLandmarkerResult :=
  { face_landmarks := [[⟨0.5, 0.5, 0.0, 0.0, 0.0⟩]]
    face_blendshapes := [[⟨0, 0.75, "", "browDownLeft"⟩]]
    facial_transformation_matrixes := [np_reshape [1.0, 2.0, 3.0, 4.0] 2 2] }

/-- Witness for `result_sequences_index_aligned` at the one-face packet set
`op_c7`. -/
theorem result_sequences_index_aligned_witness :
    _build_landmarker_result op_c7 = some res_c7 ∧
    res_c7.face_landmarks.length = 1 ∧
    res_c7.face_blendshapes.length = 1 ∧
    res_c7.facial_transformation_matrixes.length = 1 := by
  have h := result_sequences_index_aligned op_c7 res_c7 1
    [⟨[⟨0.5, 0.5, 0.0, 0.0, 0.0⟩]⟩] rfl rfl
    (fun pkt hp => by
      have h2 : some bp_c7 = some pkt := hp
      cases h2; rfl)
    (fun pkt hp => by
      have h2 : some gp_c7 = some pkt := hp
      cases h2; rfl)
    rfl
  exact ⟨rfl, h.1, h.2.1 rfl, h.2.2.2.1 rfl⟩

/-- C8: input packets on both streams are stamped `t * 1000` microseconds in
the video and live-stream paths; every timestamp handed to the live-stream
callback is the landmark packet's microsecond timestamp floor-divided by
1000 (Python `//`); and the round trip is exact on every integer. -/
theorem timestamp_conversion_exact (t : Int) :
    (video_input_packets t).1 = t * 1000 ∧
    (video_input_packets t).2 = t * 1000 ∧
    (live_stream_input_packets t).1 = t * 1000 ∧
    (live_stream_input_packets t).2 = t * 1000 ∧
    (∀ op r img ts, packets_callback op = some (CallbackOutcome.invoke r img ts) →
      ts = Int.fdiv op.norm_landmarks.timestamp _MICRO_SECONDS_PER_MILLISECOND) ∧
    Int.fdiv (t * _MICRO_SECONDS_PER_MILLISECOND) _MICRO_SECONDS_PER_MILLISECOND
      = t := by
  refine ⟨rfl, rfl, rfl, rfl, ?_, Int.mul_fdiv_cancel t (by decide)⟩
  intro op r img ts h
  unfold packets_callback at h
  cases hi : op.image_out.data with
  | none => rw [hi] at h; exact absurd h (by simp)
  | some image =>
    rw [hi] at h
    simp only [Packet.is_empty, hi, Option.isNone_some, Bool.false_eq_true,
      if_false] at h
    by_cases hl : op.norm_landmarks.data.isNone = true
    · rw [if_pos hl] at h
      simp only [Option.some.injEq, CallbackOutcome.invoke.injEq] at h
      exact h.2.2.symm
    · rw [if_neg hl] at h
      cases hb : _build_landmarker_result op with
      | none => rw [hb] at h; exact absurd h (by simp)
      | some res =>
        rw [hb] at h
        simp only [Option.map_some', Option.some.injEq,
          CallbackOutcome.invoke.injEq] at h
        exact h.2.2.symm

/-- Output-packet set for the timestamp witness: landmark packet stamped
7000 microseconds. -/
def op_c8 : OutputPackets :=
  { image_out := ⟨some ⟨3⟩, 7000⟩
    norm_landmarks := ⟨some [⟨[]⟩], 7000⟩
    blendshapes := none
    face_geometry := none }

/-- Witness for the callback-timestamp clause of
`timestamp_conversion_exact` at `op_c8` (one invoked callback, timestamp
7000 us, handed back as 7 ms). -/
theorem timestamp_conversion_exact_witness :
    packets_callback op_c8 = some (CallbackOutcome.invoke
      { face_landmarks := [[]], face_blendshapes := [],
        facial_transformation_matrixes := [] } ⟨3⟩ 7) ∧
    (7 : Int) = Int.fdiv op_c8.norm_landmarks.timestamp
      _MICRO_SECONDS_PER_MILLISECOND :=
  ⟨rfl, (timestamp_conversion_exact 0).2.2.2.2.1 op_c8
    { face_landmarks := [[]], face_blendshapes := [],
      facial_transformation_matrixes := [] } ⟨3⟩ 7 rfl⟩

end MP
